import Mathlib

/-!
Verification development for the constellation-overwatch durable event
distribution subsystem: a shallow embedding of the Go source under test
(subject helpers, the entity-service event publisher, the embedded broker
stream/consumer registry, the worker pull loop, the shutdown sequence and
the dynamic entity update builder), with theorems settling the spec claims.
-/

namespace Constellation

/-! Subject helpers, translated from src/pkg/shared/subjects.go.
Each Go helper applies fmt.Sprintf to a pattern of the form
constellation.entities.PERCENT-s.SUFFIX with the organization id. -/

def EntityCreatedSubject (orgID : String) : String :=
  "constellation.entities." ++ orgID ++ ".created"

def EntityUpdatedSubject (orgID : String) : String :=
  "constellation.entities." ++ orgID ++ ".updated"

def EntityDeletedSubject (orgID : String) : String :=
  "constellation.entities." ++ orgID ++ ".deleted"

def EntityStatusSubject (orgID : String) : String :=
  "constellation.entities." ++ orgID ++ ".status"

/-! Event type constants from src/pkg/shared (types.go constants block). -/

def EventTypeCreated : String := "created"

def EventTypeUpdated : String := "updated"

def EventTypeDeleted : String := "deleted"

def EventTypeStatus : String := "status_changed"

/-! Entity value, restricted to the fields the publish path reads
(src/pkg/ontology: Entity). Geometry, component and timestamp fields are
carried opaquely by the event payload and are not read by the publisher. -/

structure Entity where
  entityID : String
  orgID : String
  entityType : String
  status : String
  priority : String
deriving DecidableEq

/-! The observable effect of EntityService.publishEntityEvent
(src/api/services/entity.service.go lines 237-276): the subject the event
is published on, the event type recorded in the envelope, and the
deduplication key (Nats-Msg-Id) handed to PublishWithDedup. The Go code
computes the subject as shared.EntityCreatedSubject(entity.OrgID) for every
event type, and the message id as
fmt.Sprintf of entityID, eventType and time.Now().UnixNano() joined by
dashes. The wall clock reading is the nowUnixNano argument. -/

structure PublishRequest where
  subject : String
  eventType : String
  msgID : String
deriving DecidableEq

def publishMsgID (entityID eventType : String) (nowUnixNano : Nat) : String :=
  entityID ++ "-" ++ eventType ++ "-" ++ toString nowUnixNano

def publishEntityEvent (entity : Entity) (eventType : String) (nowUnixNano : Nat) :
    PublishRequest :=
  { subject := EntityCreatedSubject entity.orgID
  , eventType := eventType
  , msgID := publishMsgID entity.entityID eventType nowUnixNano }

/-! Stream registry, translated from the embeddednats package
(src/pkg/services/workers/base.go, second file in the bundle:
StreamConfig, AddStream, CreateConstellationStreams). -/

inductive RetentionPolicy
  | limits
  | workQueue
  | interest
deriving DecidableEq

inductive DiscardPolicy
  | old
  | new
deriving DecidableEq

def nsPerSecond : Nat := 1000000000

def nsPerMinute : Nat := 60 * nsPerSecond

def nsPerHour : Nat := 60 * nsPerMinute

structure StreamConfig where
  name : String
  subjects : List String
  retention : RetentionPolicy
  maxMsgs : Int
  maxBytes : Int
  maxAgeNs : Nat
  maxMsgSize : Int
  replicas : Int
  duplicateWindowNs : Nat
  allowRollup : Bool
  allowDirect : Bool
  discardPolicy : DiscardPolicy
deriving DecidableEq

/-! Broker-side JetStream stream table: an association list from stream
name to configuration, with the operations the Go code invokes on the
JetStream context (StreamInfo, UpdateStream, AddStream). -/

abbrev JSStreams := List (String × StreamConfig)

def streamLookup : JSStreams → String → Option StreamConfig
  | [], _ => none
  | p :: js, n => if p.1 = n then some p.2 else streamLookup js n

def UpdateStream : JSStreams → StreamConfig → JSStreams
  | [], _ => []
  | p :: js, cfg =>
    (if p.1 = cfg.name then (p.1, cfg) else p) :: UpdateStream js cfg

def jsAddStream (js : JSStreams) (cfg : StreamConfig) : JSStreams :=
  js ++ [(cfg.name, cfg)]

/-! In-process bookkeeping map en.streams of EmbeddedNATS; Go map
assignment replaces the binding for an existing key and inserts otherwise. -/

def mapSet : List (String × StreamConfig) → String → StreamConfig →
    List (String × StreamConfig)
  | [], k, v => [(k, v)]
  | p :: m, k, v => if p.1 = k then (k, v) :: m else p :: mapSet m k v

structure ENState where
  js : JSStreams
  streams : List (String × StreamConfig)
deriving DecidableEq

/-- EmbeddedNATS.AddStream: look the stream up by name via StreamInfo; when
it exists update it in place to the supplied definition, otherwise create
it; either way record the definition in the en.streams map. -/
def AddStream (en : ENState) (cfg : StreamConfig) : ENState :=
  match streamLookup en.js cfg.name with
  | some _ =>
    { js := UpdateStream en.js cfg, streams := mapSet en.streams cfg.name cfg }
  | none =>
    { js := jsAddStream en.js cfg, streams := mapSet en.streams cfg.name cfg }

/-! The four canonical stream definitions of
EmbeddedNATS.CreateConstellationStreams, field for field. -/

def entitiesStream : StreamConfig :=
  { name := "CONSTELLATION_ENTITIES"
  , subjects := ["constellation.entities.>"]
  , retention := RetentionPolicy.limits
  , maxMsgs := 100000
  , maxBytes := 256 * 1024 * 1024
  , maxAgeNs := 7 * 24 * nsPerHour
  , maxMsgSize := 1024 * 1024
  , replicas := 1
  , duplicateWindowNs := 2 * nsPerMinute
  , allowRollup := true
  , allowDirect := true
  , discardPolicy := DiscardPolicy.old }

def eventsStream : StreamConfig :=
  { name := "CONSTELLATION_EVENTS"
  , subjects := ["constellation.events.>"]
  , retention := RetentionPolicy.workQueue
  , maxMsgs := 50000
  , maxBytes := 128 * 1024 * 1024
  , maxAgeNs := 24 * nsPerHour
  , maxMsgSize := 256 * 1024
  , replicas := 1
  , duplicateWindowNs := 2 * nsPerMinute
  , allowRollup := false
  , allowDirect := true
  , discardPolicy := DiscardPolicy.old }

def telemetryStream : StreamConfig :=
  { name := "CONSTELLATION_TELEMETRY"
  , subjects := ["constellation.telemetry.>"]
  , retention := RetentionPolicy.interest
  , maxMsgs := 25000
  , maxBytes := 64 * 1024 * 1024
  , maxAgeNs := 1 * nsPerHour
  , maxMsgSize := 64 * 1024
  , replicas := 1
  , duplicateWindowNs := 30 * nsPerSecond
  , allowRollup := true
  , allowDirect := true
  , discardPolicy := DiscardPolicy.old }

def commandsStream : StreamConfig :=
  { name := "CONSTELLATION_COMMANDS"
  , subjects := ["constellation.commands.>"]
  , retention := RetentionPolicy.workQueue
  , maxMsgs := 10000
  , maxBytes := 32 * 1024 * 1024
  , maxAgeNs := 15 * nsPerMinute
  , maxMsgSize := 32 * 1024
  , replicas := 1
  , duplicateWindowNs := 1 * nsPerMinute
  , allowRollup := false
  , allowDirect := false
  , discardPolicy := DiscardPolicy.new }

def constellationStreams : List StreamConfig :=
  [entitiesStream, eventsStream, telemetryStream, commandsStream]

def CreateConstellationStreams (en : ENState) : ENState :=
  constellationStreams.foldl AddStream en

/-- EmbeddedNATS.PublishWithDedup: builds a message on the subject with the
payload bytes, sets the Nats-Msg-Id header to the caller supplied key and
submits it to JetStream. -/
structure DedupPublish where
  subject : String
  data : String
  natsMsgID : String
deriving DecidableEq

def PublishWithDedup (subject data msgID : String) : DedupPublish :=
  { subject := subject, data := data, natsMsgID := msgID }

/-! Durable consumer registry, translated from
EmbeddedNATS.CreateDurableConsumer (base.go lines 364-392). -/

inductive AckPolicy
  | nonePolicy
  | allPolicy
  | explicitPolicy
deriving DecidableEq

inductive DeliverPolicy
  | all
  | last
  | newOnly
deriving DecidableEq

inductive ReplayPolicy
  | instant
  | original
deriving DecidableEq

structure ConsumerConfig where
  durable : String
  filterSubject : String
  ackPolicy : AckPolicy
  ackWaitNs : Nat
  maxDeliver : Int
  maxAckPending : Int
  deliverPolicy : DeliverPolicy
  replayPolicy : ReplayPolicy
deriving DecidableEq

/-! Broker-side consumer table keyed by the (stream, durable name) pair,
with the lookup the Go code performs through ConsumerInfo. -/

abbrev JSConsumers := List ((String × String) × ConsumerConfig)

def consumerLookup : JSConsumers → String → String → Option ConsumerConfig
  | [], _, _ => none
  | p :: cs, s, n => if p.1 = (s, n) then some p.2 else consumerLookup cs s n

/-- The fixed consumer configuration CreateDurableConsumer builds: explicit
acknowledgment, 30 second ack wait, 3 max deliveries, 1000 max ack pending,
deliver all, instant replay. -/
def durableConsumerConfig (consumerName filterSubject : String) : ConsumerConfig :=
  { durable := consumerName
  , filterSubject := filterSubject
  , ackPolicy := AckPolicy.explicitPolicy
  , ackWaitNs := 30 * nsPerSecond
  , maxDeliver := 3
  , maxAckPending := 1000
  , deliverPolicy := DeliverPolicy.all
  , replayPolicy := ReplayPolicy.instant }

/-- EmbeddedNATS.CreateDurableConsumer: when ConsumerInfo finds the durable
name on the stream the function returns with no broker mutation; otherwise
it adds a consumer with the fixed configuration. -/
def CreateDurableConsumer (cs : JSConsumers)
    (streamName consumerName filterSubject : String) : JSConsumers :=
  match consumerLookup cs streamName consumerName with
  | some _ => cs
  | none => cs ++ [((streamName, consumerName),
      durableConsumerConfig consumerName filterSubject)]

/-! Worker pull loop, translated from BaseWorker.processMessages
(src/pkg/services/workers/base.go lines 49-84) and the worker handlers
(entity.go, event.go, command.go). -/

structure Msg where
  subject : String
  data : String
deriving DecidableEq

inductive LogEntry
  | workerStopping (worker : String)
  | fetchError (worker : String) (err : String)
  | ackError (worker : String) (err : String)
  | receivedMessage (worker : String) (subject : String)
  | rawMessageData (worker : String) (data : String)
  | decodedData (worker : String) (pretty : String)
deriving DecidableEq

/-! A Go handler has type func(ptr Msg) and returns nothing; its observable
behavior is the log entries it writes, and it may panic. We model it as a
function into Except, where an error value is a panic that unwinds out of
the loop (the source installs no recover anywhere). -/

abbrev Handler := Msg → Except String (List LogEntry)

/-- The body of the per-batch for loop of processMessages: for each fetched
message, invoke the handler, then call Ack and log any acknowledgment
error. ackErr gives the broker outcome of each Ack call. The result is the
list of messages on which an Ack attempt was made, the log entries written,
and the panic value if a handler invocation panicked (which unwinds before
the Ack of that message and skips the remainder of the batch). -/
def processBatch (w : String) (handler : Handler) (ackErr : Msg → Option String) :
    List Msg → List Msg × List LogEntry × Option String
  | [] => ([], [], none)
  | m :: ms =>
    match handler m with
    | Except.error p => ([], [], some p)
    | Except.ok logs =>
      let ackLog : List LogEntry :=
        match ackErr m with
        | some e => [LogEntry.ackError w e]
        | none => []
      let r := processBatch w handler ackErr ms
      (m :: r.1, logs ++ ackLog ++ r.2.1, r.2.2)

/-! The fetch error outcome of sub.Fetch: nil, nats.ErrTimeout, or some
other error. -/

inductive FetchErr
  | timeout
  | other (e : String)
deriving DecidableEq

/-- One iteration of the default branch of the processMessages select loop:
fetch returned (msgs, err); when err is non-nil and is not ErrTimeout, log
the fetch error and continue without touching the batch; otherwise process
the fetched messages. Components: messages with an Ack attempt, log
entries, and a panic value when a handler panicked. -/
def loopIteration (w : String) (handler : Handler) (ackErr : Msg → Option String)
    (msgs : List Msg) (fetchRes : Option FetchErr) :
    List Msg × List LogEntry × Option String :=
  match fetchRes with
  | some (FetchErr.other e) => ([], [LogEntry.fetchError w e], none)
  | _ => processBatch w handler ackErr msgs

/-- The handler EntityWorker.Start passes to processMessages
(src/pkg/services/workers/entity.go lines 29-41): log receipt with the
subject, attempt a JSON decode of the payload; on failure log the raw
message bytes, on success log the indented rendering. json.Unmarshal and
json.MarshalIndent are standard library collaborators, passed as
parameters. The handler always returns normally. -/
def entityWorkerHandler {α : Type} (unmarshal : String → Option α)
    (marshalIndent : α → String) (w : String) : Handler := fun msg =>
  Except.ok ([LogEntry.receivedMessage w msg.subject] ++
    match unmarshal msg.data with
    | none => [LogEntry.rawMessageData w msg.data]
    | some d => [LogEntry.decodedData w (marshalIndent d)])

/-! Shutdown sequence, translated from Manager.Stop
(src/pkg/services/workers/manager.go lines 69-88), BaseWorker.Stop,
EmbeddedNATS.Shutdown and the shutdown tail of main
(src/cmd/microlith/main.go lines 166-193). Only the bus related steps are
traced; the HTTP server shutdown that precedes them is outside the claim. -/

inductive ShutdownStep
  | signalCancel
  | drainSubscription (worker : String)
  | waitAllStopped
  | closeConnection
  | stopBroker
deriving DecidableEq

/-! Worker construction order in NewManager: telemetry, entity, event,
command. -/

def managerWorkers : List String :=
  ["TelemetryWorker", "EntityWorker", "EventWorker", "CommandWorker"]

/-- Manager.Stop: cancel the shared context, then call Stop on each worker
in order (BaseWorker.Stop drains the subscription), then wg.Wait for every
worker goroutine to report stopped, then close the shared client
connection. -/
def managerStopTrace : List ShutdownStep :=
  ShutdownStep.signalCancel ::
    (managerWorkers.map ShutdownStep.drainSubscription ++
      [ShutdownStep.waitAllStopped, ShutdownStep.closeConnection])

/-- EmbeddedNATS.Shutdown: close the client connection, then shut the
broker process down and wait for it. -/
def natsShutdownTrace : List ShutdownStep :=
  [ShutdownStep.closeConnection, ShutdownStep.stopBroker]

/-- The shutdown tail of main after the signal arrives: workerManager.Stop
followed by nats.Shutdown. -/
def mainShutdownTrace : List ShutdownStep :=
  managerStopTrace ++ natsShutdownTrace

/-- Modelled from the spec wording of the claim, for comparison with the
trace of the source: signal cancellation, wait for all workers to report
stopped, then drain each subscription, then close the shared client
connection, then stop the broker. -/
def claimedShutdownTrace : List ShutdownStep :=
  ShutdownStep.signalCancel :: ShutdownStep.waitAllStopped ::
    (managerWorkers.map ShutdownStep.drainSubscription ++
      [ShutdownStep.closeConnection, ShutdownStep.stopBroker])

/-! Dynamic update builder of EntityService.UpdateEntity
(src/api/services/entity.service.go lines 137-193). -/

inductive GoValue
  | str (s : String)
  | boolean (b : Bool)
  | num (n : Int)
  | jsonVal (marshaled : String)
deriving DecidableEq

/-! One SQL argument appended to the args slice: the RFC3339 rendering of
time.Now for updated_at, a value passed through, the 1 or 0 literal of the
is_live conversion, or the json.Marshal rendering of a value. -/

inductive SQLArg
  | timeNow
  | value (v : GoValue)
  | intLit (n : Int)
  | marshaled (v : GoValue)
deriving DecidableEq

def recognizedUpdateKeys : List String :=
  ["status", "priority", "entity_type", "is_live", "latitude", "longitude",
   "altitude", "heading", "velocity", "metadata", "components", "tags"]

/-- The switch body of the update loop for a single key: the columns
appended to the SET clause and the arguments appended to the args slice.
The is_live branch appends its column unconditionally but appends an
argument only when the value is a Go bool; an unrecognized key appends
nothing. -/
def updateClauseStep (key : String) (v : GoValue) : List String × List SQLArg :=
  if key = "status" ∨ key = "priority" ∨ key = "entity_type" then
    ([key], [SQLArg.value v])
  else if key = "is_live" then
    ([key],
      match v with
      | GoValue.boolean true => [SQLArg.intLit 1]
      | GoValue.boolean false => [SQLArg.intLit 0]
      | _ => [])
  else if key = "latitude" ∨ key = "longitude" ∨ key = "altitude" ∨
      key = "heading" ∨ key = "velocity" then
    ([key], [SQLArg.value v])
  else if key = "metadata" ∨ key = "components" ∨ key = "tags" then
    ([key], [SQLArg.marshaled v])
  else
    ([], [])

/-- The update loop over the updates map, taken in iteration order as a
list of key-value pairs, accumulating SET columns and arguments. -/
def buildUpdateClause : List (String × GoValue) → List String × List SQLArg
  | [] => ([], [])
  | (k, v) :: rest =>
    let s := updateClauseStep k v
    let r := buildUpdateClause rest
    (s.1 ++ r.1, s.2 ++ r.2)

/-- EntityService.UpdateEntity up to the SQL execution: an empty updates
map is the only input rejected with an error; otherwise the query sets
updated_at first and then the columns the loop produced. The trailing
WHERE arguments and the database round trip are external. -/
def UpdateEntity (updates : List (String × GoValue)) :
    Except String (List String × List SQLArg) :=
  if updates = [] then Except.error "no updates provided"
  else
    let b := buildUpdateClause updates
    Except.ok ("updated_at" :: b.1, SQLArg.timeNow :: b.2)

/-! Concrete fixtures used by witnesses and counterexamples. -/

def sampleEntity : Entity :=
  { entityID := "e1", orgID := "org1", entityType := "vehicle"
  , status := "active", priority := "normal" }

def sampleBoomMsg : Msg :=
  { subject := "constellation.entities.org1.created", data := "boom" }

def sampleGoodMsg : Msg :=
  { subject := "constellation.entities.org1.created", data := "good" }

/-- A handler that panics exactly on the payload boom, used to exhibit how
a panic unwinds out of the per-batch loop. -/
def panicOnBoom : Handler := fun m =>
  if m.data = "boom" then Except.error "handler panic" else Except.ok []

def noAckErr : Msg → Option String := fun _ => none

def sampleUpdates : List (String × GoValue) :=
  [("status", GoValue.str "active"), ("bogus", GoValue.str "x")]

/-! Theorems. -/

/-- Claim C1. The source publishes every entity lifecycle event on the
subject built by EntityCreatedSubject, whatever the event kind: at the
concrete input of an update event for organization org1, the publish
subject ends in created and differs from the updated subject the claim
requires, even though the envelope records the updated event type. -/
theorem publishEntityEvent_subject_always_created :
    (publishEntityEvent sampleEntity EventTypeUpdated 0).subject
        = EntityCreatedSubject "org1"
    ∧ (publishEntityEvent sampleEntity EventTypeUpdated 0).subject
        ≠ EntityUpdatedSubject "org1"
    ∧ (publishEntityEvent sampleEntity EventTypeUpdated 0).eventType
        = EventTypeUpdated := by
  refine ⟨rfl, ?_, rfl⟩
  decide

/-- Claim C2. The deduplication key handed to PublishWithDedup embeds the
wall clock in nanoseconds, so two invocations for the same logical event
(same entity, same event kind) at distinct instants carry distinct keys:
evaluated at clock readings 100 and 200. -/
theorem publishEntityEvent_dedup_key_unstable :
    (publishEntityEvent sampleEntity EventTypeCreated 100).msgID
      ≠ (publishEntityEvent sampleEntity EventTypeCreated 200).msgID := by
  decide

/-- Claim C3, counterexample. The shutdown trace of the source differs from
the order the claim states: the source drains each subscription before
waiting for the workers to report stopped, and the worker manager closes
the shared client connection itself. -/
theorem mainShutdownTrace_ne_claimed : mainShutdownTrace ≠ claimedShutdownTrace := by
  decide

/-- Claim C3, amended. On shutdown the source signals cancellation, then
drains each subscription in worker order, then waits for every worker to
report stopped, then the worker manager closes the shared client
connection, then the broker shutdown closes the connection again and stops
the broker process. -/
theorem mainShutdownTrace_eq :
    mainShutdownTrace =
      [ShutdownStep.signalCancel,
       ShutdownStep.drainSubscription "TelemetryWorker",
       ShutdownStep.drainSubscription "EntityWorker",
       ShutdownStep.drainSubscription "EventWorker",
       ShutdownStep.drainSubscription "CommandWorker",
       ShutdownStep.waitAllStopped,
       ShutdownStep.closeConnection,
       ShutdownStep.closeConnection,
       ShutdownStep.stopBroker] := by
  rfl

/-- Claim C4, counterexample. In a batch of two messages where the handler
panics on the first, the second message receives no acknowledgment
attempt: the panic unwinds out of the per-batch loop before the remaining
messages are visited, contradicting the claim at this input. -/
theorem processBatch_panic_skips_rest :
    ¬ sampleGoodMsg ∈
      (processBatch "EntityWorker" panicOnBoom noAckErr
        [sampleBoomMsg, sampleGoodMsg]).1 := by
  decide

/-- Claim C4, amended. The worker acknowledges exactly the longest initial
run of batch messages whose handler invocation returns normally: a handler
panic on one message prevents the acknowledgment of that message and of
every later message of the batch, while handler failures that are handled
inside the handler (which then returns normally) do not prevent any
acknowledgment attempt. -/
theorem processBatch_acks_until_panic (w : String) (handler : Handler)
    (ackErr : Msg → Option String) (batch : List Msg) :
    (processBatch w handler ackErr batch).1
      = batch.takeWhile (fun m => (handler m).toBool) := by
  induction batch with
  | nil => rfl
  | cons m ms ih =>
    simp only [processBatch, List.takeWhile]
    cases h : handler m with
    | error p => simp [Except.toBool, h]
    | ok logs => simp [Except.toBool, h, ih]

/-- Claim C8. A loop iteration whose fetch returns ErrTimeout with zero
messages writes no log entry, makes no acknowledgment attempt and does not
abort the loop, so the next fetch follows immediately. -/
theorem fetch_timeout_quiet (w : String) (handler : Handler)
    (ackErr : Msg → Option String) :
    loopIteration w handler ackErr [] (some FetchErr.timeout) = ([], [], none) := by
  rfl

/-- Claim C9. Running CreateConstellationStreams on an empty broker
declares exactly four streams with the claimed settings: entities with
limit retention, discard old, 100000 messages, 256MB, 7 days, 1MB; events
with work queue retention, discard old, 50000, 128MB, 24 hours, 256KB;
telemetry with interest retention, discard old, 25000, 64MB, 1 hour, 64KB;
commands with work queue retention, discard new, 10000, 32MB, 15 minutes,
32KB. -/
theorem createConstellationStreams_settings :
    (CreateConstellationStreams ⟨[], []⟩).js.map (fun p =>
        (p.1, p.2.retention, p.2.discardPolicy, p.2.maxMsgs, p.2.maxBytes,
          p.2.maxAgeNs, p.2.maxMsgSize))
      = [("CONSTELLATION_ENTITIES", RetentionPolicy.limits, DiscardPolicy.old,
            100000, 256 * 1024 * 1024, 7 * 24 * nsPerHour, 1024 * 1024),
         ("CONSTELLATION_EVENTS", RetentionPolicy.workQueue, DiscardPolicy.old,
            50000, 128 * 1024 * 1024, 24 * nsPerHour, 256 * 1024),
         ("CONSTELLATION_TELEMETRY", RetentionPolicy.interest, DiscardPolicy.old,
            25000, 64 * 1024 * 1024, 1 * nsPerHour, 64 * 1024),
         ("CONSTELLATION_COMMANDS", RetentionPolicy.workQueue, DiscardPolicy.new,
            10000, 32 * 1024 * 1024, 15 * nsPerMinute, 32 * 1024)] := by
  rfl

/-! Helper lemmas about the stream registry association list. -/

theorem streamLookup_append_of_none (js : JSStreams) (cfg : StreamConfig)
    (h : streamLookup js cfg.name = none) :
    streamLookup (jsAddStream js cfg) cfg.name = some cfg := by
  induction js with
  | nil => simp [jsAddStream, streamLookup]
  | cons p js ih =>
    simp only [streamLookup] at h
    by_cases hp : p.1 = cfg.name
    · simp [hp] at h
    · simp only [jsAddStream, List.cons_append] at ih ⊢
      simp only [streamLookup, if_neg hp]
      exact ih (by simpa [hp] using h)

theorem streamLookup_update_self (js : JSStreams) (cfg : StreamConfig)
    (c : StreamConfig) (h : streamLookup js cfg.name = some c) :
    streamLookup (UpdateStream js cfg) cfg.name = some cfg := by
  induction js with
  | nil => simp [streamLookup] at h
  | cons p js ih =>
    simp only [streamLookup] at h
    by_cases hp : p.1 = cfg.name
    · simp [UpdateStream, streamLookup, hp]
    · simp only [UpdateStream, if_neg hp, streamLookup]
      exact ih (by simpa [hp] using h)

theorem updateStream_append_of_none (js : JSStreams) (cfg : StreamConfig)
    (h : streamLookup js cfg.name = none) :
    UpdateStream (jsAddStream js cfg) cfg = jsAddStream js cfg := by
  induction js with
  | nil => simp [jsAddStream, UpdateStream]
  | cons p js ih =>
    simp only [streamLookup] at h
    by_cases hp : p.1 = cfg.name
    · simp [hp] at h
    · simp only [jsAddStream, List.cons_append] at ih ⊢
      simp only [UpdateStream, if_neg hp]
      rw [ih (by simpa [hp] using h)]

theorem updateStream_idem (js : JSStreams) (cfg : StreamConfig) :
    UpdateStream (UpdateStream js cfg) cfg = UpdateStream js cfg := by
  induction js with
  | nil => rfl
  | cons p js ih =>
    by_cases hp : p.1 = cfg.name
    · simp [UpdateStream, hp, ih]
    · simp [UpdateStream, hp, ih]

theorem mapSet_idem (m : List (String × StreamConfig)) (k : String) (v : StreamConfig) :
    mapSet (mapSet m k v) k v = mapSet m k v := by
  induction m with
  | nil => simp [mapSet]
  | cons p m ih =>
    by_cases hp : p.1 = k
    · simp [mapSet, hp]
    · simp [mapSet, hp, ih]

/-- Claim C5. AddStream looks the stream up by name, creates it when
absent, updates it in place when present, and is idempotent: the second of
two calls with the same definition changes nothing, neither on the broker
stream table nor in the bookkeeping map. -/
theorem AddStream_registry (en : ENState) (cfg : StreamConfig) :
    (streamLookup en.js cfg.name = none →
        (AddStream en cfg).js = jsAddStream en.js cfg)
    ∧ (∀ c, streamLookup en.js cfg.name = some c →
        (AddStream en cfg).js = UpdateStream en.js cfg)
    ∧ AddStream (AddStream en cfg) cfg = AddStream en cfg := by
  refine ⟨?_, ?_, ?_⟩
  · intro h
    simp [AddStream, h]
  · intro c h
    simp [AddStream, h]
  · cases h : streamLookup en.js cfg.name with
    | none =>
      have h1 : streamLookup (jsAddStream en.js cfg) cfg.name = some cfg :=
        streamLookup_append_of_none en.js cfg h
      simp only [AddStream, h, h1]
      exact congrArg₂ ENState.mk (updateStream_append_of_none en.js cfg h)
        (mapSet_idem en.streams cfg.name cfg)
    | some c =>
      have h1 : streamLookup (UpdateStream en.js cfg) cfg.name = some cfg :=
        streamLookup_update_self en.js cfg c h
      simp only [AddStream, h, h1]
      exact congrArg₂ ENState.mk (updateStream_idem en.js cfg)
        (mapSet_idem en.streams cfg.name cfg)

/-- Witness for C5: on an empty registry the entities stream definition is
created, and declaring it a second time changes nothing. -/
theorem AddStream_registry_witness :
    ((AddStream ⟨[], []⟩ entitiesStream).js = jsAddStream [] entitiesStream)
    ∧ ((AddStream ⟨[(entitiesStream.name, entitiesStream)], []⟩ entitiesStream).js
        = UpdateStream [(entitiesStream.name, entitiesStream)] entitiesStream)
    ∧ AddStream (AddStream ⟨[], []⟩ entitiesStream) entitiesStream
        = AddStream ⟨[], []⟩ entitiesStream :=
  ⟨(AddStream_registry ⟨[], []⟩ entitiesStream).1 rfl,
   (AddStream_registry ⟨[(entitiesStream.name, entitiesStream)], []⟩
      entitiesStream).2.1 entitiesStream (by simp [streamLookup]),
   (AddStream_registry ⟨[], []⟩ entitiesStream).2.2⟩

/-! Helper lemma about the consumer table. -/

theorem consumerLookup_append_self (cs : JSConsumers) (s n : String)
    (v : ConsumerConfig) (h : consumerLookup cs s n = none) :
    consumerLookup (cs ++ [((s, n), v)]) s n = some v := by
  induction cs with
  | nil => simp [consumerLookup]
  | cons p cs ih =>
    simp only [consumerLookup] at h
    by_cases hp : p.1 = (s, n)
    · simp [hp] at h
    · simp only [List.cons_append, consumerLookup, if_neg hp]
      exact ih (by simpa [hp] using h)

/-- Claim C6. CreateDurableConsumer is idempotent: when a consumer of the
durable name exists on the stream the call leaves the table untouched,
whatever configuration that consumer has (no diff, no update); only when
absent does it create the consumer with the fixed configuration; and a
repeated call changes nothing. -/
theorem CreateDurableConsumer_idempotent (cs : JSConsumers) (s n f : String) :
    (∀ c, consumerLookup cs s n = some c → CreateDurableConsumer cs s n f = cs)
    ∧ (consumerLookup cs s n = none →
        CreateDurableConsumer cs s n f
          = cs ++ [((s, n), durableConsumerConfig n f)])
    ∧ CreateDurableConsumer (CreateDurableConsumer cs s n f) s n f
        = CreateDurableConsumer cs s n f := by
  refine ⟨?_, ?_, ?_⟩
  · intro c h
    simp [CreateDurableConsumer, h]
  · intro h
    simp [CreateDurableConsumer, h]
  · cases h : consumerLookup cs s n with
    | none =>
      have h1 := consumerLookup_append_self cs s n (durableConsumerConfig n f) h
      simp [CreateDurableConsumer, h, h1]
    | some c =>
      simp [CreateDurableConsumer, h]

/-- Witness for C6: the entity processor consumer of main is created on an
empty table, a second call is a no-op, and on a table already holding the
name the call leaves the table untouched. -/
theorem CreateDurableConsumer_idempotent_witness :
    (CreateDurableConsumer [] "CONSTELLATION_ENTITIES" "entity-processor"
        "constellation.entities.>"
      = [] ++ [(("CONSTELLATION_ENTITIES", "entity-processor"),
          durableConsumerConfig "entity-processor" "constellation.entities.>")])
    ∧ (CreateDurableConsumer
        [(("CONSTELLATION_ENTITIES", "entity-processor"),
          durableConsumerConfig "entity-processor" "constellation.entities.>")]
        "CONSTELLATION_ENTITIES" "entity-processor" "constellation.entities.>"
      = [(("CONSTELLATION_ENTITIES", "entity-processor"),
          durableConsumerConfig "entity-processor" "constellation.entities.>")]) :=
  ⟨(CreateDurableConsumer_idempotent [] "CONSTELLATION_ENTITIES"
      "entity-processor" "constellation.entities.>").2.1 rfl,
   (CreateDurableConsumer_idempotent
      [(("CONSTELLATION_ENTITIES", "entity-processor"),
        durableConsumerConfig "entity-processor" "constellation.entities.>")]
      "CONSTELLATION_ENTITIES" "entity-processor" "constellation.entities.>").1
      (durableConsumerConfig "entity-processor" "constellation.entities.>")
      (by simp [consumerLookup])⟩

/-! Helper lemma: the entity worker handler never panics, so a batch it
processes never aborts. -/

theorem processBatch_entityHandler_no_panic {α : Type}
    (unmarshal : String → Option α) (marshalIndent : α → String) (w : String)
    (ackErr : Msg → Option String) (batch : List Msg) :
    (processBatch w (entityWorkerHandler unmarshal marshalIndent w) ackErr
      batch).2.2 = none := by
  induction batch with
  | nil => rfl
  | cons m ms ih =>
    simp only [processBatch, entityWorkerHandler]
    exact ih

/-- Claim C7. Every fetched message whose payload fails JSON decoding is
still acknowledged, the raw message bytes appear in the log, and the batch
processing does not abort, so the malformed payload is neither redelivered
nor able to stop the loop. -/
theorem malformed_payload_still_acked {α : Type} (unmarshal : String → Option α)
    (marshalIndent : α → String) (w : String) (ackErr : Msg → Option String)
    (batch : List Msg) (m : Msg) (hm : m ∈ batch)
    (hdec : unmarshal m.data = none) :
    m ∈ (processBatch w (entityWorkerHandler unmarshal marshalIndent w) ackErr
          batch).1
    ∧ LogEntry.rawMessageData w m.data
        ∈ (processBatch w (entityWorkerHandler unmarshal marshalIndent w) ackErr
            batch).2.1
    ∧ (processBatch w (entityWorkerHandler unmarshal marshalIndent w) ackErr
        batch).2.2 = none := by
  refine ⟨?_, ?_, processBatch_entityHandler_no_panic unmarshal marshalIndent w
    ackErr batch⟩
  · induction batch with
    | nil => cases hm
    | cons m₀ ms ih =>
      simp only [processBatch, entityWorkerHandler]
      rcases List.mem_cons.mp hm with h | h
      · exact List.mem_cons.mpr (Or.inl h)
      · exact List.mem_cons.mpr (Or.inr (ih h))
  · induction batch with
    | nil => cases hm
    | cons m₀ ms ih =>
      simp only [processBatch, entityWorkerHandler]
      rcases List.mem_cons.mp hm with h | h
      · subst h
        simp [hdec]
      · have hrest := ih h
        simp only [List.mem_append]
        tauto

/-- Witness for C7: a one message batch whose payload no decoder accepts is
acknowledged, logged raw, and does not abort the loop. -/
theorem malformed_payload_still_acked_witness :
    sampleBoomMsg ∈ (processBatch "EntityWorker"
        (entityWorkerHandler (fun _ => (none : Option Unit)) (fun _ => "")
          "EntityWorker") noAckErr [sampleBoomMsg]).1
    ∧ LogEntry.rawMessageData "EntityWorker" sampleBoomMsg.data
        ∈ (processBatch "EntityWorker"
            (entityWorkerHandler (fun _ => (none : Option Unit)) (fun _ => "")
              "EntityWorker") noAckErr [sampleBoomMsg]).2.1
    ∧ (processBatch "EntityWorker"
        (entityWorkerHandler (fun _ => (none : Option Unit)) (fun _ => "")
          "EntityWorker") noAckErr [sampleBoomMsg]).2.2 = none :=
  malformed_payload_still_acked (fun _ => (none : Option Unit)) (fun _ => "")
    "EntityWorker" noAckErr [sampleBoomMsg] sampleBoomMsg (by simp) rfl

/-! Helper lemmas about the dynamic update builder. -/

theorem updateClauseStep_unrecognized (k : String) (v : GoValue)
    (h : ¬ k ∈ recognizedUpdateKeys) : updateClauseStep k v = ([], []) := by
  simp only [recognizedUpdateKeys, List.mem_cons, List.not_mem_nil, or_false,
    not_or] at h
  obtain ⟨h1, h2, h3, h4, h5, h6, h7, h8, h9, h10, h11, h12⟩ := h
  simp [updateClauseStep, h1, h2, h3, h4, h5, h6, h7, h8, h9, h10, h11, h12]

theorem updateClauseStep_cols (k : String) (v : GoValue) (c : String)
    (hc : c ∈ (updateClauseStep k v).1) : c ∈ recognizedUpdateKeys := by
  by_cases h : k ∈ recognizedUpdateKeys
  · unfold updateClauseStep at hc
    split_ifs at hc <;> simp_all
  · rw [updateClauseStep_unrecognized k v h] at hc
    cases hc

theorem buildUpdateClause_cols (updates : List (String × GoValue)) (c : String)
    (hc : c ∈ (buildUpdateClause updates).1) : c ∈ recognizedUpdateKeys := by
  induction updates with
  | nil => cases hc
  | cons p rest ih =>
    simp only [buildUpdateClause] at hc
    rcases List.mem_append.mp hc with h | h
    · exact updateClauseStep_cols p.1 p.2 c h
    · exact ih h

theorem buildUpdateClause_filter (updates : List (String × GoValue)) :
    buildUpdateClause updates
      = buildUpdateClause (updates.filter
          (fun p => decide (p.1 ∈ recognizedUpdateKeys))) := by
  induction updates with
  | nil => rfl
  | cons p rest ih =>
    by_cases h : p.1 ∈ recognizedUpdateKeys
    · simp only [List.filter_cons, decide_eq_true h, if_pos, buildUpdateClause, ih]
    · have hstep := updateClauseStep_unrecognized p.1 p.2 h
      simp [List.filter_cons, h, buildUpdateClause, hstep, ih]

/-- Claim C10. For a non-empty updates map, UpdateEntity succeeds, the SET
clause consists of updated_at followed by columns drawn only from the
recognized keys, and keys outside the recognized set are silently ignored:
filtering them out of the input leaves the built clause unchanged. -/
theorem UpdateEntity_frame (updates : List (String × GoValue))
    (h : updates ≠ []) :
    UpdateEntity updates
      = Except.ok ("updated_at" :: (buildUpdateClause updates).1,
          SQLArg.timeNow :: (buildUpdateClause updates).2)
    ∧ (∀ c ∈ (buildUpdateClause updates).1, c ∈ recognizedUpdateKeys)
    ∧ buildUpdateClause updates
      = buildUpdateClause (updates.filter
          (fun p => decide (p.1 ∈ recognizedUpdateKeys))) :=
  ⟨by simp [UpdateEntity, h],
   fun c hc => buildUpdateClause_cols updates c hc,
   buildUpdateClause_filter updates⟩

/-- Witness for C10: an update map holding the recognized key status and
the unrecognized key bogus succeeds, produces only recognized columns, and
builds the same clause once the unrecognized key is filtered out. -/
theorem UpdateEntity_frame_witness :
    UpdateEntity sampleUpdates
      = Except.ok ("updated_at" :: (buildUpdateClause sampleUpdates).1,
          SQLArg.timeNow :: (buildUpdateClause sampleUpdates).2)
    ∧ (∀ c ∈ (buildUpdateClause sampleUpdates).1, c ∈ recognizedUpdateKeys)
    ∧ buildUpdateClause sampleUpdates
      = buildUpdateClause (sampleUpdates.filter
          (fun p => decide (p.1 ∈ recognizedUpdateKeys))) :=
  UpdateEntity_frame sampleUpdates (by decide)

end Constellation
